import Mathlib

/-!
Verification development for the `rusty_hyrule_compendium` crate: a shallow
embedding of its domain models, serde-style JSON decoding, path construction
and blocking-client request pipeline, followed by theorems settling the
specification claims.

Modelling conventions:
* JSON values are the inductive `Json`; objects are association lists of
  string keys (field lookup takes the first occurrence); JSON numbers are
  modelled as integers (no claim inspects fractional values).
* serde semantics embedded: fields of `Option` type decode missing or null
  to `none`; unknown object fields are ignored; `serde(default = f)` yields
  the default literal only when the field is absent; the internally tagged
  `EntryResponse` enum dispatches on the string value of the `category` field.
* The external `url` crate and the HTTP transport are capabilities: URL
  parsing is an arbitrary `String -> Option String`, URL joining an
  arbitrary `UrlModel`, and the network an arbitrary
  `String -> Option HttpResponse` (where `none` is a transport failure).
-/

deriving instance DecidableEq for Except

/-- JSON values; objects are association lists, numbers are integers. -/
inductive Json where
  | null : Json
  | bool : Bool → Json
  | num : Int → Json
  | str : String → Json
  | arr : List Json → Json
  | obj : List (String × Json) → Json

/-- Look a field up in a JSON object's association list (first occurrence). -/
def Json.getField : List (String × Json) → String → Option Json
  | [], _ => none
  | (k, v) :: rest, key => if k = key then some v else Json.getField rest key

/-- Decode a JSON value as a string (serde `String`). -/
def decodeStr : Json → Option String
  | Json.str s => some s
  | _ => none

/-- Decode a JSON value as an `i32` (serde rejects out-of-range numbers). -/
def decodeI32 : Json → Option Int
  | Json.num n => if -(2 ^ 31) ≤ n ∧ n < 2 ^ 31 then some n else none
  | _ => none

/-- Decode a JSON value as a number (models the crate's `f32` fields). -/
def decodeNum : Json → Option Int
  | Json.num n => some n
  | _ => none

/-- Decode each element of a JSON list. -/
def decodeList (dec : Json → Option α) : List Json → Option (List α)
  | [] => some []
  | j :: rest =>
    match dec j, decodeList dec rest with
    | some x, some xs => some (x :: xs)
    | _, _ => none

/-- Decode a JSON value as an array of elements (serde `Vec<T>`). -/
def decodeListOf (dec : Json → Option α) : Json → Option (List α)
  | Json.arr xs => decodeList dec xs
  | _ => none

/-- Decode a JSON value as a list of strings (serde `Vec<String>`). -/
def decodeStrList : Json → Option (List String) :=
  decodeListOf decodeStr

/-- serde `Option<T>` struct field: missing or null decodes to `none`;
any other value must decode with `dec`. -/
def decodeOptField (dec : Json → Option α) (fields : List (String × Json))
    (key : String) : Option (Option α) :=
  match Json.getField fields key with
  | none => some none
  | some Json.null => some none
  | some v => (dec v).map some

/-- serde `#[serde(default = ...)]` on a `String` field: the default literal
is used only when the field is absent. -/
def decodeCategoryType (fields : List (String × Json)) (dflt : String) :
    Option String :=
  match Json.getField fields "category_type" with
  | none => some dflt
  | some v => decodeStr v

/-- `CommonEntry` (src/domain/models/common_entry.rs): the field set shared
by all five entry kinds. -/
structure CommonEntry where
  id : Int
  name : String
  description : String
  common_locations : Option (List String)
  image : String
deriving DecidableEq

/-- Decode `CommonEntry` from the (flattened) field list of a JSON object:
`id`, `name`, `description`, `image` are required, `common_locations` is
optional; unknown fields are ignored. -/
def decodeCommonEntry (fields : List (String × Json)) : Option CommonEntry :=
  match (Json.getField fields "id").bind decodeI32,
      (Json.getField fields "name").bind decodeStr,
      (Json.getField fields "description").bind decodeStr,
      decodeOptField decodeStrList fields "common_locations",
      (Json.getField fields "image").bind decodeStr with
  | some i, some n, some d, some cl, some img => some ⟨i, n, d, cl, img⟩
  | _, _, _, _, _ => none

/-- `MonsterEntry` (src/domain/models/monster_entry.rs). -/
structure MonsterEntry where
  common_fields : CommonEntry
  drops : Option (List String)
  category_type : String
deriving DecidableEq

/-- Decode `MonsterEntry`: common fields flattened in, optional `drops`,
and `category_type` defaulting to "monsters" when absent. -/
def decodeMonsterEntry (fields : List (String × Json)) : Option MonsterEntry :=
  (decodeCommonEntry fields).bind fun c =>
    (decodeOptField decodeStrList fields "drops").bind fun d =>
      (decodeCategoryType fields "monsters").map fun ct => ⟨c, d, ct⟩

/-- `CreatureEntry` (src/domain/models/creature_entry.rs). -/
structure CreatureEntry where
  common_fields : CommonEntry
  drops : Option (List String)
  hearts_recovered : Option Int
  cooking_effect : Option String
  category_type : String
deriving DecidableEq

/-- Decode `CreatureEntry`: optional `drops`, `hearts_recovered`,
`cooking_effect`, and `category_type` defaulting to "creatures". -/
def decodeCreatureEntry (fields : List (String × Json)) : Option CreatureEntry :=
  (decodeCommonEntry fields).bind fun c =>
    (decodeOptField decodeStrList fields "drops").bind fun d =>
      (decodeOptField decodeNum fields "hearts_recovered").bind fun hr =>
        (decodeOptField decodeStr fields "cooking_effect").bind fun ce =>
          (decodeCategoryType fields "creatures").map fun ct =>
            ⟨c, d, hr, ce, ct⟩

/-- `MaterialEntry` (src/domain/models/material_entry.rs). -/
structure MaterialEntry where
  common_fields : CommonEntry
  hearts_recovered : Option Int
  category_type : String
deriving DecidableEq

/-- Decode `MaterialEntry`: optional `hearts_recovered`, `category_type`
defaulting to "materials". -/
def decodeMaterialEntry (fields : List (String × Json)) : Option MaterialEntry :=
  (decodeCommonEntry fields).bind fun c =>
    (decodeOptField decodeNum fields "hearts_recovered").bind fun hr =>
      (decodeCategoryType fields "materials").map fun ct => ⟨c, hr, ct⟩

/-- `EquipmentEntry` (src/domain/models/equipment_entry.rs). -/
structure EquipmentEntry where
  common_fields : CommonEntry
  attack : Option Int
  defense : Option Int
  category_type : String
deriving DecidableEq

/-- Decode `EquipmentEntry`: optional `attack` and `defense`,
`category_type` defaulting to "equipment". -/
def decodeEquipmentEntry (fields : List (String × Json)) : Option EquipmentEntry :=
  (decodeCommonEntry fields).bind fun c =>
    (decodeOptField decodeI32 fields "attack").bind fun a =>
      (decodeOptField decodeI32 fields "defense").bind fun d =>
        (decodeCategoryType fields "equipment").map fun ct => ⟨c, a, d, ct⟩

/-- `TreasureEntry` (src/domain/models/treasure_entry.rs). -/
structure TreasureEntry where
  common_fields : CommonEntry
  drops : Option (List String)
  category_type : String
deriving DecidableEq

/-- Decode `TreasureEntry`: optional `drops`, `category_type` defaulting
to "treasure". -/
def decodeTreasureEntry (fields : List (String × Json)) : Option TreasureEntry :=
  (decodeCommonEntry fields).bind fun c =>
    (decodeOptField decodeStrList fields "drops").bind fun d =>
      (decodeCategoryType fields "treasure").map fun ct => ⟨c, d, ct⟩

/-- `EntryResponse` (src/domain/responses.rs): the internally tagged union
of the five entry kinds. -/
inductive EntryResponse where
  | Monster : MonsterEntry → EntryResponse
  | Creature : CreatureEntry → EntryResponse
  | Equipment : EquipmentEntry → EntryResponse
  | Treasure : TreasureEntry → EntryResponse
  | Material : MaterialEntry → EntryResponse
deriving DecidableEq

/-- Dispatch on the value of the `category` tag; unrecognized tags fail. -/
def decodeVariant (c : String) (fields : List (String × Json)) :
    Option EntryResponse :=
  if c = "monsters" then (decodeMonsterEntry fields).map EntryResponse.Monster
  else if c = "creatures" then
    (decodeCreatureEntry fields).map EntryResponse.Creature
  else if c = "equipment" then
    (decodeEquipmentEntry fields).map EntryResponse.Equipment
  else if c = "treasure" then
    (decodeTreasureEntry fields).map EntryResponse.Treasure
  else if c = "materials" then
    (decodeMaterialEntry fields).map EntryResponse.Material
  else none

/-- Internally tagged decoding (`#[serde(tag = "category")]`): read the
`category` field, which must be a string, then dispatch. -/
def decodeTagged (fields : List (String × Json)) : Option EntryResponse :=
  match Json.getField fields "category" with
  | some (Json.str c) => decodeVariant c fields
  | _ => none

/-- Decode `EntryResponse` from a JSON value: must be an object carrying a
recognized `category` discriminator. -/
def decodeEntryResponse : Json → Option EntryResponse
  | Json.obj fields => decodeTagged fields
  | _ => none

/-- Decode a `MonsterEntry` from a JSON value (must be an object). -/
def decodeMonsterJson : Json → Option MonsterEntry
  | Json.obj fields => decodeMonsterEntry fields
  | _ => none

/-- Decode a `CreatureEntry` from a JSON value (must be an object). -/
def decodeCreatureJson : Json → Option CreatureEntry
  | Json.obj fields => decodeCreatureEntry fields
  | _ => none

/-- Decode a `MaterialEntry` from a JSON value (must be an object). -/
def decodeMaterialJson : Json → Option MaterialEntry
  | Json.obj fields => decodeMaterialEntry fields
  | _ => none

/-- Decode an `EquipmentEntry` from a JSON value (must be an object). -/
def decodeEquipmentJson : Json → Option EquipmentEntry
  | Json.obj fields => decodeEquipmentEntry fields
  | _ => none

/-- Decode a `TreasureEntry` from a JSON value (must be an object). -/
def decodeTreasureJson : Json → Option TreasureEntry
  | Json.obj fields => decodeTreasureEntry fields
  | _ => none

/-- `AllCreatureEntries` (src/domain/responses.rs): food / non-food split. -/
structure AllCreatureEntries where
  food : List CreatureEntry
  non_food : List CreatureEntry
deriving DecidableEq

/-- Decode `AllCreatureEntries`: both `food` and `non_food` are required
lists of creature entries. -/
def decodeAllCreatureEntries : Json → Option AllCreatureEntries
  | Json.obj fields =>
    match (Json.getField fields "food").bind (decodeListOf decodeCreatureJson),
        (Json.getField fields "non_food").bind
          (decodeListOf decodeCreatureJson) with
    | some f, some nf => some ⟨f, nf⟩
    | _, _ => none
  | _ => none

/-- The `ApiResponse` envelope: the payload sits under a required `data`
field; other envelope fields are ignored. -/
def decodeApiResponse (dec : Json → Option α) : Json → Option α
  | Json.obj fields => (Json.getField fields "data").bind dec
  | _ => none

/-- `CompendiumError` (src/error.rs); payloads of the two transport-wrapping
variants are dropped. -/
inductive CompendiumError where
  | InvalidBaseUrl : String → CompendiumError
  | ErrorConstructingResourceUrl : CompendiumError
  | RequestError : CompendiumError
  | NoDataFound : String → CompendiumError
  | ServerError : CompendiumError
  | ResponseParsingError : CompendiumError
deriving DecidableEq

/-- `EntryIdentifier` (src/domain/inputs.rs). -/
inductive EntryIdentifier where
  | Id : Int → EntryIdentifier
  | Name : String → EntryIdentifier
deriving DecidableEq

/-- `GameMode` (src/domain/inputs.rs). -/
inductive GameMode where
  | Standard : GameMode
  | MasterMode : GameMode
deriving DecidableEq

/-- `CompendiumCategory` (src/domain/inputs.rs). -/
inductive CompendiumCategory where
  | Treasure : CompendiumCategory
  | Creature : CompendiumCategory
  | Monster : CompendiumCategory
  | Material : CompendiumCategory
  | Equipment : CompendiumCategory
deriving DecidableEq

/-- `CategoryResult` (src/domain/responses.rs). -/
inductive CategoryResult where
  | Treasure : List TreasureEntry → CategoryResult
  | Creatures : AllCreatureEntries → CategoryResult
  | Monsters : List MonsterEntry → CategoryResult
  | Materials : List MaterialEntry → CategoryResult
  | Equipment : List EquipmentEntry → CategoryResult
deriving DecidableEq

/-- An HTTP response as seen by `handle_response`: numeric status, the path
of the response's URL, and the body already lexed as JSON. -/
structure HttpResponse where
  status : Nat
  url_path : String
  body : Json

/-- The network capability: a GET of a URL string either fails at the
transport level (`none`) or produces an HTTP response. -/
abbrev Net := String → Option HttpResponse

/-- The URL-join capability of the external `url` crate: relative
resolution of a segment against a base, which can fail. -/
structure UrlModel where
  join : String → String → Option String

/-- `CompendiumClient` (src/blocking/compendium.rs): holds the base URL;
the transport handle is passed as a capability instead. -/
structure CompendiumClient where
  base_url : String
deriving DecidableEq

/-- `reqwest::StatusCode::is_server_error`: the 5xx range. -/
def is_server_error (status : Nat) : Bool :=
  500 ≤ status && status ≤ 599

/-- `reqwest::StatusCode::is_client_error`: the 4xx range. -/
def is_client_error (status : Nat) : Bool :=
  400 ≤ status && status ≤ 499

/-- `handle_response` (src/blocking/compendium.rs lines 280-292). -/
def handle_response (response_data : HttpResponse) :
    Except CompendiumError HttpResponse :=
  if is_server_error response_data.status then
    Except.error CompendiumError.ServerError
  else if is_client_error response_data.status then
    Except.error (CompendiumError.NoDataFound response_data.url_path)
  else Except.ok response_data

/-- The hardcoded production base URL used by `Default for CompendiumClient`. -/
def default_base_url : String :=
  "https://botw-compendium.herokuapp.com/api/v2/"

/-- `CompendiumClient::new`: parse the supplied base URL with the external
parser, mapping a parse failure to `InvalidBaseUrl` carrying the input. -/
def CompendiumClient.new (parse : String → Option String) (url : String) :
    Except CompendiumError CompendiumClient :=
  match parse url with
  | some u => Except.ok ⟨u⟩
  | none => Except.error (CompendiumError.InvalidBaseUrl url)

/-- `Default for CompendiumClient`: parse the hardcoded production URL
(the source unwraps, so the client exists exactly when parsing succeeds). -/
def CompendiumClient.defaultClient (parse : String → Option String) :
    Option CompendiumClient :=
  (parse default_base_url).map fun u => ⟨u⟩

/-- `replace(' ', "_")` from `create_path_for_entry`: every space becomes
an underscore, all other characters pass through. -/
def replaceSpaces (s : String) : String :=
  ⟨s.data.map fun c => if c = ' ' then '_' else c⟩

/-- `create_path` (src/blocking/compendium.rs lines 145-148). -/
def create_path (M : UrlModel) (url : String) (path_to_add : String) :
    Except CompendiumError String :=
  match M.join url path_to_add with
  | some u => Except.ok u
  | none => Except.error CompendiumError.ErrorConstructingResourceUrl

/-- `create_path_for_entry` (src/blocking/compendium.rs lines 150-162). -/
def create_path_for_entry (M : UrlModel) (c : CompendiumClient)
    (identifier : EntryIdentifier) (mode : GameMode) :
    Except CompendiumError String :=
  let entry_identifier :=
    match identifier with
    | EntryIdentifier.Id id => toString id
    | EntryIdentifier.Name name => replaceSpaces name
  if mode = GameMode.MasterMode then
    create_path M c.base_url ("master_mode/entry/" ++ entry_identifier)
  else
    create_path M c.base_url ("entry/" ++ entry_identifier)

/-- `make_request` (src/blocking/compendium.rs lines 164-170): transport
failure becomes `RequestError`, then the status is classified. -/
def make_request (net : Net) (url : String) :
    Except CompendiumError HttpResponse :=
  match net url with
  | none => Except.error CompendiumError.RequestError
  | some r => handle_response r

/-- `fetch_data_for_specified_type` (lines 172-181): request, then decode
the body as the `data` envelope; a decode failure is
`ResponseParsingError`. -/
def fetch_data_for_specified_type (net : Net) (dec : Json → Option α)
    (url : String) : Except CompendiumError α :=
  match make_request net url with
  | Except.error e => Except.error e
  | Except.ok response =>
    match decodeApiResponse dec response.body with
    | some v => Except.ok v
    | none => Except.error CompendiumError.ResponseParsingError

/-- `category_path_for_type` (lines 183-191). -/
def category_path_for_type : CompendiumCategory → String
  | CompendiumCategory.Creature => "creatures"
  | CompendiumCategory.Monster => "monsters"
  | CompendiumCategory.Material => "materials"
  | CompendiumCategory.Treasure => "treasure"
  | CompendiumCategory.Equipment => "equipment"

/-- `fetch_data_for_specific_category` (lines 193-215): fetch the list for
the requested category and wrap it in that category's variant. -/
def fetch_data_for_specific_category (net : Net) (url : String)
    (entry_type : CompendiumCategory) :
    Except CompendiumError CategoryResult :=
  match entry_type with
  | CompendiumCategory.Monster =>
    (fetch_data_for_specified_type net (decodeListOf decodeMonsterJson)
      url).map CategoryResult.Monsters
  | CompendiumCategory.Material =>
    (fetch_data_for_specified_type net (decodeListOf decodeMaterialJson)
      url).map CategoryResult.Materials
  | CompendiumCategory.Treasure =>
    (fetch_data_for_specified_type net (decodeListOf decodeTreasureJson)
      url).map CategoryResult.Treasure
  | CompendiumCategory.Creature =>
    (fetch_data_for_specified_type net decodeAllCreatureEntries
      url).map CategoryResult.Creatures
  | CompendiumCategory.Equipment =>
    (fetch_data_for_specified_type net (decodeListOf decodeEquipmentJson)
      url).map CategoryResult.Equipment

/-- `fetch_data_for_specified_entry` (lines 217-227). -/
def fetch_data_for_specified_entry (M : UrlModel) (net : Net)
    (c : CompendiumClient) (dec : Json → Option α)
    (identifier : EntryIdentifier) (game_mode : GameMode) :
    Except CompendiumError α :=
  match create_path_for_entry M c identifier game_mode with
  | Except.error e => Except.error e
  | Except.ok url => fetch_data_for_specified_type net dec url

/-- `CompendiumApiClient::entry` for `CompendiumClient` (lines 231-233). -/
def CompendiumClient.entry (c : CompendiumClient) (M : UrlModel) (net : Net)
    (identifier : EntryIdentifier) : Except CompendiumError EntryResponse :=
  fetch_data_for_specified_entry M net c decodeEntryResponse identifier
    GameMode.Standard

/-- `CompendiumApiClient::monster` (lines 235-237). -/
def CompendiumClient.monster (c : CompendiumClient) (M : UrlModel) (net : Net)
    (identifier : EntryIdentifier) : Except CompendiumError MonsterEntry :=
  fetch_data_for_specified_entry M net c decodeMonsterJson identifier
    GameMode.Standard

/-- `CompendiumApiClient::master_mode_monster` (lines 239-241). -/
def CompendiumClient.master_mode_monster (c : CompendiumClient) (M : UrlModel)
    (net : Net) (identifier : EntryIdentifier) :
    Except CompendiumError MonsterEntry :=
  fetch_data_for_specified_entry M net c decodeMonsterJson identifier
    GameMode.MasterMode

/-- `CompendiumApiClient::treasure` (lines 243-245). -/
def CompendiumClient.treasure (c : CompendiumClient) (M : UrlModel) (net : Net)
    (identifier : EntryIdentifier) : Except CompendiumError TreasureEntry :=
  fetch_data_for_specified_entry M net c decodeTreasureJson identifier
    GameMode.Standard

/-- `CompendiumApiClient::creature` (lines 247-249). -/
def CompendiumClient.creature (c : CompendiumClient) (M : UrlModel) (net : Net)
    (identifier : EntryIdentifier) : Except CompendiumError CreatureEntry :=
  fetch_data_for_specified_entry M net c decodeCreatureJson identifier
    GameMode.Standard

/-- `CompendiumApiClient::equipment` (lines 251-253). -/
def CompendiumClient.equipment (c : CompendiumClient) (M : UrlModel) (net : Net)
    (identifier : EntryIdentifier) : Except CompendiumError EquipmentEntry :=
  fetch_data_for_specified_entry M net c decodeEquipmentJson identifier
    GameMode.Standard

/-- `CompendiumApiClient::material` (lines 255-257). -/
def CompendiumClient.material (c : CompendiumClient) (M : UrlModel) (net : Net)
    (identifier : EntryIdentifier) : Except CompendiumError MaterialEntry :=
  fetch_data_for_specified_entry M net c decodeMaterialJson identifier
    GameMode.Standard

/-- `CompendiumApiClient::category` (lines 259-265). -/
def CompendiumClient.category (c : CompendiumClient) (M : UrlModel) (net : Net)
    (category : CompendiumCategory) : Except CompendiumError CategoryResult :=
  match create_path M c.base_url
      ("category/" ++ category_path_for_type category) with
  | Except.error e => Except.error e
  | Except.ok category_url =>
    fetch_data_for_specific_category net category_url category

/-- Spec-side rendering of an identifier into its path text: decimal form
for ids, space-to-underscore encoding for names. -/
def renderIdentifier : EntryIdentifier → String
  | EntryIdentifier.Id n => toString n
  | EntryIdentifier.Name s => replaceSpaces s

/-- Spec-side mode-dependent lead of the entry path segment. -/
def modeDir : GameMode → String
  | GameMode.Standard => "entry/"
  | GameMode.MasterMode => "master_mode/entry/"

/-- Does a `CategoryResult` carry the variant assigned to the requested
category? -/
def categoryResultMatches : CompendiumCategory → CategoryResult → Bool
  | CompendiumCategory.Treasure, CategoryResult.Treasure _ => true
  | CompendiumCategory.Creature, CategoryResult.Creatures _ => true
  | CompendiumCategory.Monster, CategoryResult.Monsters _ => true
  | CompendiumCategory.Material, CategoryResult.Materials _ => true
  | CompendiumCategory.Equipment, CategoryResult.Equipment _ => true
  | _, _ => false

/-- Helper: adding a field under a different key does not change lookup. -/
theorem getField_cons_ne (k : String) (j : Json) (fields : List (String × Json))
    (key : String) (h : k ≠ key) :
    Json.getField ((k, j) :: fields) key = Json.getField fields key := by
  simp [Json.getField, h]

/-- Helper: optional-field decoding ignores fields under other keys. -/
theorem decodeOptField_cons_ne (dec : Json → Option α) (k : String) (j : Json)
    (fields : List (String × Json)) (key : String) (h : k ≠ key) :
    decodeOptField dec ((k, j) :: fields) key = decodeOptField dec fields key := by
  unfold decodeOptField
  rw [getField_cons_ne k j fields key h]

/-- Helper: `category_type` decoding ignores fields under other keys. -/
theorem decodeCategoryType_cons_ne (k : String) (j : Json)
    (fields : List (String × Json)) (dflt : String) (h : k ≠ "category_type") :
    decodeCategoryType ((k, j) :: fields) dflt = decodeCategoryType fields dflt := by
  unfold decodeCategoryType
  rw [getField_cons_ne k j fields "category_type" h]

/-- Helper: two strings with distinct leading literals are never equal. -/
theorem entry_lead_ne_master_lead (r s : String) :
    "entry/" ++ r ≠ "master_mode/" ++ s := by
  intro h
  have h2 := congrArg String.data h
  rw [String.data_append, String.data_append] at h2
  simp at h2

/-- Claim C4: for every identifier and mode, the entry path is the segment
`entry/` (or `master_mode/entry/` in master mode) followed by the rendered
identifier — decimal form for ids, spaces turned to underscores (and no
other character changed) for names — joined onto the base URL by the
relative-resolution capability. -/
theorem C4_entry_path (M : UrlModel) (c : CompendiumClient)
    (identifier : EntryIdentifier) (mode : GameMode) :
    create_path_for_entry M c identifier mode =
      create_path M c.base_url (modeDir mode ++ renderIdentifier identifier) ∧
    (∀ n : Int, renderIdentifier (EntryIdentifier.Id n) = toString n) ∧
    (∀ s : String,
      (renderIdentifier (EntryIdentifier.Name s)).length = s.length) ∧
    (∀ (s : String) (i : Nat)
      (h : i < (renderIdentifier (EntryIdentifier.Name s)).data.length)
      (h2 : i < s.data.length),
      (renderIdentifier (EntryIdentifier.Name s)).data.get ⟨i, h⟩ =
        if s.data.get ⟨i, h2⟩ = ' ' then '_' else s.data.get ⟨i, h2⟩) := by
  refine ⟨?_, fun n => rfl, fun s => ?_, fun s i h h2 => ?_⟩
  · cases mode <;> rfl
  · exact List.length_map s.data _
  · simp [renderIdentifier, replaceSpaces, List.get_eq_getElem,
      List.getElem_map]

/-- Concrete instance of C4: the second character of the encoding of
"a b" is the underscore substituted for the space. -/
theorem C4_entry_path_witness :
    (renderIdentifier (EntryIdentifier.Name "a b")).data.get ⟨1, by decide⟩ =
      if "a b".data.get ⟨1, by decide⟩ = ' ' then '_'
      else "a b".data.get ⟨1, by decide⟩ :=
  (C4_entry_path ⟨fun b s => some (b ++ s)⟩ ⟨"b/"⟩
    (EntryIdentifier.Name "a b") GameMode.Standard).2.2.2 "a b" 1
    (by decide) (by decide)

/-- Claim C9: the space-to-underscore encoding is idempotent, and each
request applies it exactly once to the name before the single join. -/
theorem C9_encode_idempotent :
    (∀ s : String, replaceSpaces (replaceSpaces s) = replaceSpaces s) ∧
    (∀ (M : UrlModel) (c : CompendiumClient) (s : String) (mode : GameMode),
      create_path_for_entry M c (EntryIdentifier.Name s) mode =
        create_path M c.base_url (modeDir mode ++ replaceSpaces s)) := by
  constructor
  · intro s
    apply congrArg String.mk
    show (s.data.map fun c => if c = ' ' then '_' else c).map
        (fun c => if c = ' ' then '_' else c) =
      s.data.map fun c => if c = ' ' then '_' else c
    rw [List.map_map]
    apply List.map_congr_left
    intro a _
    by_cases h : a = ' ' <;> simp [Function.comp, h]
  · intro M c s mode
    cases mode <;> rfl

/-- Claim C6: `entry` always runs in Standard mode (its segment starts with
`entry/` and never with `master_mode/`), while master-mode lookups are the
monster-specific `master_mode_monster`, whose segment starts with
`master_mode/entry/`. -/
theorem C6_entry_modes :
    (∀ (M : UrlModel) (net : Net) (c : CompendiumClient) (i : EntryIdentifier),
      CompendiumClient.entry c M net i =
        fetch_data_for_specified_entry M net c decodeEntryResponse i
          GameMode.Standard) ∧
    (∀ (M : UrlModel) (net : Net) (c : CompendiumClient) (i : EntryIdentifier),
      CompendiumClient.master_mode_monster c M net i =
        fetch_data_for_specified_entry M net c decodeMonsterJson i
          GameMode.MasterMode) ∧
    (∀ (M : UrlModel) (c : CompendiumClient) (i : EntryIdentifier),
      create_path_for_entry M c i GameMode.Standard =
        create_path M c.base_url ("entry/" ++ renderIdentifier i)) ∧
    (∀ (M : UrlModel) (c : CompendiumClient) (i : EntryIdentifier),
      create_path_for_entry M c i GameMode.MasterMode =
        create_path M c.base_url ("master_mode/entry/" ++ renderIdentifier i)) ∧
    (∀ (i : EntryIdentifier) (s : String),
      "entry/" ++ renderIdentifier i ≠ "master_mode/" ++ s) :=
  ⟨fun _ _ _ _ => rfl, fun _ _ _ _ => rfl, fun _ _ _ => rfl, fun _ _ _ => rfl,
    fun i s => entry_lead_ne_master_lead (renderIdentifier i) s⟩

/-- Concrete instance of C6: the standard segment for id 1 is not a
master-mode path. -/
theorem C6_entry_modes_witness :
    "entry/" ++ renderIdentifier (EntryIdentifier.Id 1) ≠
      "master_mode/" ++ "1" :=
  C6_entry_modes.2.2.2.2 (EntryIdentifier.Id 1) "1"

/-- Claim C7: `new` fails with `InvalidBaseUrl` carrying the supplied
string exactly when the URL parser rejects it, and otherwise returns a
client holding the parsed URL; the default client is bound to the
hardcoded production URL under the `/api/v2/` path. -/
theorem C7_construction (parse : String → Option String) (url : String) :
    (CompendiumClient.new parse url =
        Except.error (CompendiumError.InvalidBaseUrl url) ↔
      parse url = none) ∧
    (∀ u, parse url = some u →
      CompendiumClient.new parse url = Except.ok ⟨u⟩) ∧
    (∀ u, parse default_base_url = some u →
      CompendiumClient.defaultClient parse = some ⟨u⟩) ∧
    default_base_url =
      "https://botw-compendium.herokuapp.com" ++ "/api/v2/" := by
  refine ⟨?_, ?_, ?_, by decide⟩
  · cases hp : parse url <;> simp [CompendiumClient.new, hp]
  · intro u hu
    simp [CompendiumClient.new, hu]
  · intro u hu
    simp [CompendiumClient.defaultClient, hu]

/-- Concrete instance of C7: a parser that accepts everything yields a
client with the supplied base URL. -/
theorem C7_construction_witness :
    CompendiumClient.new (fun s => some s) "https://x.test/" =
      Except.ok ⟨"https://x.test/"⟩ :=
  (C7_construction (fun s => some s) "https://x.test/").2.1
    "https://x.test/" rfl

/-- A monster payload, as in the crate's own silver-moblin test fixture. -/
def silverFields : List (String × Json) :=
  [("category", Json.str "monsters"), ("id", Json.num 112),
   ("name", Json.str "silver moblin"), ("description", Json.str "strong"),
   ("image", Json.str "url")]

/-- The entry the silver-moblin payload decodes to. -/
def silverMonster : MonsterEntry :=
  ⟨⟨112, "silver moblin", "strong", none, "url"⟩, none, "monsters"⟩

/-- A 500 response with an arbitrary body. -/
def respServerFail : HttpResponse := ⟨500, "/entry/1", Json.null⟩

/-- A network that always answers with the 500 response. -/
def netServerFail : Net := fun _ => some respServerFail

/-- Helper: the 5xx test in arithmetic form. -/
theorem is_server_error_iff (n : Nat) :
    is_server_error n = true ↔ 500 ≤ n ∧ n ≤ 599 := by
  simp [is_server_error]

/-- Helper: the 4xx test in arithmetic form. -/
theorem is_client_error_iff (n : Nat) :
    is_client_error n = true ↔ 400 ≤ n ∧ n ≤ 499 := by
  simp [is_client_error]

/-- Helper: outside the 5xx range the server-error test is false. -/
theorem is_server_error_false_of (n : Nat) (h : ¬(500 ≤ n ∧ n ≤ 599)) :
    is_server_error n = false := by
  cases hb : is_server_error n with
  | false => rfl
  | true => exact absurd ((is_server_error_iff n).mp hb) h

/-- Helper: outside the 4xx range the client-error test is false. -/
theorem is_client_error_false_of (n : Nat) (h : ¬(400 ≤ n ∧ n ≤ 499)) :
    is_client_error n = false := by
  cases hb : is_client_error n with
  | false => rfl
  | true => exact absurd ((is_client_error_iff n).mp hb) h

/-- Claim C2: a 5xx status fails with `ServerError` whatever the body, a
4xx status fails with `NoDataFound` carrying the path of the requested
resource, and any other status proceeds to body decoding. -/
theorem C2_status_classification (α : Type) (net : Net) (url : String)
    (dec : Json → Option α) (r : HttpResponse) (h : net url = some r) :
    (500 ≤ r.status ∧ r.status ≤ 599 →
      fetch_data_for_specified_type net dec url =
        Except.error CompendiumError.ServerError) ∧
    (400 ≤ r.status ∧ r.status ≤ 499 →
      fetch_data_for_specified_type net dec url =
        Except.error (CompendiumError.NoDataFound r.url_path)) ∧
    (¬(400 ≤ r.status ∧ r.status ≤ 599) →
      fetch_data_for_specified_type net dec url =
        match decodeApiResponse dec r.body with
        | some v => Except.ok v
        | none => Except.error CompendiumError.ResponseParsingError) := by
  have hm : make_request net url = handle_response r := by
    simp [make_request, h]
  refine ⟨?_, ?_, ?_⟩
  · rintro ⟨h1, h2⟩
    have hs : is_server_error r.status = true :=
      (is_server_error_iff r.status).mpr ⟨h1, h2⟩
    simp [fetch_data_for_specified_type, hm, handle_response, hs]
  · rintro ⟨h1, h2⟩
    have hs : is_server_error r.status = false :=
      is_server_error_false_of r.status (by omega)
    have hc : is_client_error r.status = true :=
      (is_client_error_iff r.status).mpr ⟨h1, h2⟩
    simp [fetch_data_for_specified_type, hm, handle_response, hs, hc]
  · intro hno
    have hs : is_server_error r.status = false :=
      is_server_error_false_of r.status (by omega)
    have hc : is_client_error r.status = false :=
      is_client_error_false_of r.status (by omega)
    have hh : handle_response r = Except.ok r := by
      simp [handle_response, hs, hc]
    unfold fetch_data_for_specified_type
    rw [hm, hh]
    rfl

/-- Concrete instance of C2: a 500 response yields `ServerError`. -/
theorem C2_status_classification_witness :
    fetch_data_for_specified_type netServerFail decodeEntryResponse "u" =
      Except.error CompendiumError.ServerError :=
  (C2_status_classification EntryResponse netServerFail "u"
    decodeEntryResponse respServerFail rfl).1 (by decide)

/-- A 300 response whose body is a well-formed monster envelope. -/
def respRedirect : HttpResponse :=
  ⟨300, "/entry/silver_moblin", Json.obj [("data", Json.obj silverFields)]⟩

/-- A network that always answers with the 300 response. -/
def netRedirect : Net := fun _ => some respRedirect

/-- Counterexample to claim C8: a status of 300 is outside the 2xx range,
yet the client decodes the body and returns a decoded value, so "success
exactly when 2xx / no body decode outside 2xx" fails. -/
theorem C8_counterexample :
    fetch_data_for_specified_type netRedirect decodeEntryResponse "u" =
      Except.ok (EntryResponse.Monster silverMonster) := by decide

/-- Claim C8 as amended: the body is decoded exactly when the status is
neither 4xx nor 5xx (so 1xx and 3xx statuses also proceed to decoding);
4xx means "no such resource" and 5xx means server failure, both with the
body ignored. -/
theorem C8_amended_status_gate (α : Type) (r : HttpResponse) :
    (handle_response r = Except.ok r ↔
      ¬(400 ≤ r.status ∧ r.status ≤ 599)) ∧
    (400 ≤ r.status → r.status ≤ 499 →
      handle_response r =
        Except.error (CompendiumError.NoDataFound r.url_path)) ∧
    (500 ≤ r.status → r.status ≤ 599 →
      handle_response r = Except.error CompendiumError.ServerError) ∧
    (∀ (net : Net) (url : String) (dec : Json → Option α),
      net url = some r → ¬(400 ≤ r.status ∧ r.status ≤ 599) →
      fetch_data_for_specified_type net dec url =
        match decodeApiResponse dec r.body with
        | some v => Except.ok v
        | none => Except.error CompendiumError.ResponseParsingError) := by
  refine ⟨⟨?_, ?_⟩, ?_, ?_, ?_⟩
  · intro hok hin
    by_cases h5 : 500 ≤ r.status
    · have hs : is_server_error r.status = true :=
        (is_server_error_iff r.status).mpr (by omega)
      simp [handle_response, hs] at hok
    · have hs : is_server_error r.status = false :=
        is_server_error_false_of r.status (by omega)
      have hc : is_client_error r.status = true :=
        (is_client_error_iff r.status).mpr (by omega)
      simp [handle_response, hs, hc] at hok
  · intro hn
    have hs : is_server_error r.status = false :=
      is_server_error_false_of r.status (by omega)
    have hc : is_client_error r.status = false :=
      is_client_error_false_of r.status (by omega)
    simp [handle_response, hs, hc]
  · intro h1 h2
    have hs : is_server_error r.status = false :=
      is_server_error_false_of r.status (by omega)
    have hc : is_client_error r.status = true :=
      (is_client_error_iff r.status).mpr ⟨h1, h2⟩
    simp [handle_response, hs, hc]
  · intro h1 h2
    have hs : is_server_error r.status = true :=
      (is_server_error_iff r.status).mpr ⟨h1, h2⟩
    simp [handle_response, hs]
  · intro net url dec hn hno
    have hs : is_server_error r.status = false :=
      is_server_error_false_of r.status (by omega)
    have hc : is_client_error r.status = false :=
      is_client_error_false_of r.status (by omega)
    have hh : handle_response r = Except.ok r := by
      simp [handle_response, hs, hc]
    have hm : make_request net url = handle_response r := by
      simp [make_request, hn]
    unfold fetch_data_for_specified_type
    rw [hm, hh]
    rfl

/-- Concrete instance of amended C8: the status gate passes 300 through. -/
theorem C8_amended_status_gate_witness :
    handle_response respRedirect = Except.ok respRedirect :=
  (C8_amended_status_gate EntryResponse respRedirect).1.mpr (by decide)

/-- Helper: what a decoded `category_type` is, as a function of the
payload: the default when absent, the payload's string when present. -/
theorem decodeCategoryType_spec (fields : List (String × Json))
    (dflt ct : String) (h : decodeCategoryType fields dflt = some ct) :
    (Json.getField fields "category_type" = none → ct = dflt) ∧
    (∀ s, Json.getField fields "category_type" = some (Json.str s) → ct = s) := by
  constructor
  · intro hn
    unfold decodeCategoryType at h
    rw [hn] at h
    have h2 : some dflt = some ct := h
    injection h2 with h3
    exact h3.symm
  · intro s hs
    unfold decodeCategoryType at h
    rw [hs] at h
    have h2 : some s = some ct := h
    injection h2 with h3
    exact h3.symm

/-- Helper: a decoded monster's `category_type` comes from
`decodeCategoryType`. -/
theorem decodeMonsterEntry_ct (fields : List (String × Json))
    (m : MonsterEntry) (h : decodeMonsterEntry fields = some m) :
    decodeCategoryType fields "monsters" = some m.category_type := by
  unfold decodeMonsterEntry at h
  rw [Option.bind_eq_some] at h
  obtain ⟨c, hc, h⟩ := h
  rw [Option.bind_eq_some] at h
  obtain ⟨d, hd, h⟩ := h
  rw [Option.map_eq_some'] at h
  obtain ⟨ct, hct, hm⟩ := h
  rw [← hm]
  exact hct

/-- Helper: a decoded creature's `category_type` comes from
`decodeCategoryType`. -/
theorem decodeCreatureEntry_ct (fields : List (String × Json))
    (m : CreatureEntry) (h : decodeCreatureEntry fields = some m) :
    decodeCategoryType fields "creatures" = some m.category_type := by
  unfold decodeCreatureEntry at h
  rw [Option.bind_eq_some] at h
  obtain ⟨c, hc, h⟩ := h
  rw [Option.bind_eq_some] at h
  obtain ⟨d, hd, h⟩ := h
  rw [Option.bind_eq_some] at h
  obtain ⟨hr, hhr, h⟩ := h
  rw [Option.bind_eq_some] at h
  obtain ⟨ce, hce, h⟩ := h
  rw [Option.map_eq_some'] at h
  obtain ⟨ct, hct, hm⟩ := h
  rw [← hm]
  exact hct

/-- Helper: a decoded material's `category_type` comes from
`decodeCategoryType`. -/
theorem decodeMaterialEntry_ct (fields : List (String × Json))
    (m : MaterialEntry) (h : decodeMaterialEntry fields = some m) :
    decodeCategoryType fields "materials" = some m.category_type := by
  unfold decodeMaterialEntry at h
  rw [Option.bind_eq_some] at h
  obtain ⟨c, hc, h⟩ := h
  rw [Option.bind_eq_some] at h
  obtain ⟨hr, hhr, h⟩ := h
  rw [Option.map_eq_some'] at h
  obtain ⟨ct, hct, hm⟩ := h
  rw [← hm]
  exact hct

/-- Helper: a decoded equipment's `category_type` comes from
`decodeCategoryType`. -/
theorem decodeEquipmentEntry_ct (fields : List (String × Json))
    (m : EquipmentEntry) (h : decodeEquipmentEntry fields = some m) :
    decodeCategoryType fields "equipment" = some m.category_type := by
  unfold decodeEquipmentEntry at h
  rw [Option.bind_eq_some] at h
  obtain ⟨c, hc, h⟩ := h
  rw [Option.bind_eq_some] at h
  obtain ⟨a, ha, h⟩ := h
  rw [Option.bind_eq_some] at h
  obtain ⟨d, hd, h⟩ := h
  rw [Option.map_eq_some'] at h
  obtain ⟨ct, hct, hm⟩ := h
  rw [← hm]
  exact hct

/-- Helper: a decoded treasure's `category_type` comes from
`decodeCategoryType`. -/
theorem decodeTreasureEntry_ct (fields : List (String × Json))
    (m : TreasureEntry) (h : decodeTreasureEntry fields = some m) :
    decodeCategoryType fields "treasure" = some m.category_type := by
  unfold decodeTreasureEntry at h
  rw [Option.bind_eq_some] at h
  obtain ⟨c, hc, h⟩ := h
  rw [Option.bind_eq_some] at h
  obtain ⟨d, hd, h⟩ := h
  rw [Option.map_eq_some'] at h
  obtain ⟨ct, hct, hm⟩ := h
  rw [← hm]
  exact hct

/-- A monster payload that supplies an empty `category_type` string. -/
def emptyCtFields : List (String × Json) :=
  [("id", Json.num 1), ("name", Json.str "n"),
   ("description", Json.str "d"), ("image", Json.str "i"),
   ("category_type", Json.str "")]

/-- Counterexample to claim C3: a payload carrying `category_type = ""`
decodes successfully into an entry whose `category_type` is empty, so
"for every successfully decoded entry, category_type is non-empty" fails;
the default literal is injected only when the field is absent. -/
theorem C3_counterexample :
    decodeMonsterEntry emptyCtFields =
      some ⟨⟨1, "n", "d", none, "i"⟩, none, ""⟩ ∧
    (⟨⟨1, "n", "d", none, "i"⟩, none, ""⟩ : MonsterEntry).category_type = "" := by
  constructor
  · decide
  · rfl

/-- Claim C3 as amended: for every successfully decoded entry of any of
the five kinds, when the source payload omits `category_type` the decode
injects the kind-specific default literal, and when the payload supplies
a string the decoded `category_type` equals it (so it is non-empty unless
the payload itself supplies the empty string). -/
theorem C3_amended_category_type :
    (∀ (fields : List (String × Json)) (m : MonsterEntry),
      decodeMonsterEntry fields = some m →
      (Json.getField fields "category_type" = none →
        m.category_type = "monsters") ∧
      (∀ s, Json.getField fields "category_type" = some (Json.str s) →
        m.category_type = s)) ∧
    (∀ (fields : List (String × Json)) (m : CreatureEntry),
      decodeCreatureEntry fields = some m →
      (Json.getField fields "category_type" = none →
        m.category_type = "creatures") ∧
      (∀ s, Json.getField fields "category_type" = some (Json.str s) →
        m.category_type = s)) ∧
    (∀ (fields : List (String × Json)) (m : MaterialEntry),
      decodeMaterialEntry fields = some m →
      (Json.getField fields "category_type" = none →
        m.category_type = "materials") ∧
      (∀ s, Json.getField fields "category_type" = some (Json.str s) →
        m.category_type = s)) ∧
    (∀ (fields : List (String × Json)) (m : EquipmentEntry),
      decodeEquipmentEntry fields = some m →
      (Json.getField fields "category_type" = none →
        m.category_type = "equipment") ∧
      (∀ s, Json.getField fields "category_type" = some (Json.str s) →
        m.category_type = s)) ∧
    (∀ (fields : List (String × Json)) (m : TreasureEntry),
      decodeTreasureEntry fields = some m →
      (Json.getField fields "category_type" = none →
        m.category_type = "treasure") ∧
      (∀ s, Json.getField fields "category_type" = some (Json.str s) →
        m.category_type = s)) :=
  ⟨fun fields m h =>
    decodeCategoryType_spec fields "monsters" m.category_type
      (decodeMonsterEntry_ct fields m h),
  fun fields m h =>
    decodeCategoryType_spec fields "creatures" m.category_type
      (decodeCreatureEntry_ct fields m h),
  fun fields m h =>
    decodeCategoryType_spec fields "materials" m.category_type
      (decodeMaterialEntry_ct fields m h),
  fun fields m h =>
    decodeCategoryType_spec fields "equipment" m.category_type
      (decodeEquipmentEntry_ct fields m h),
  fun fields m h =>
    decodeCategoryType_spec fields "treasure" m.category_type
      (decodeTreasureEntry_ct fields m h)⟩

/-- Concrete instance of amended C3: the silver-moblin payload omits
`category_type`, and the decoded entry carries the injected default. -/
theorem C3_amended_category_type_witness :
    silverMonster.category_type = "monsters" :=
  (C3_amended_category_type.1 silverFields silverMonster (by decide)).1 rfl

/-- Claim C1: single-entry decoding dispatches on the `category` field,
whose recognized values are exactly the five category words; when the
discriminator is absent, of the wrong type, or unrecognized (including on
the empty object), decoding fails, and a 2xx entry request whose envelope
fails to decode surfaces `ResponseParsingError`. -/
theorem C1_entry_discriminator :
    (∀ fields, Json.getField fields "category" = none →
      decodeEntryResponse (Json.obj fields) = none) ∧
    (∀ fields v, Json.getField fields "category" = some v →
      (∀ s, v ≠ Json.str s) → decodeEntryResponse (Json.obj fields) = none) ∧
    (∀ fields s, Json.getField fields "category" = some (Json.str s) →
      s ∉ (["monsters", "creatures", "equipment", "treasure",
        "materials"] : List String) →
      decodeEntryResponse (Json.obj fields) = none) ∧
    (∀ fields, Json.getField fields "category" = some (Json.str "monsters") →
      decodeEntryResponse (Json.obj fields) =
        (decodeMonsterEntry fields).map EntryResponse.Monster) ∧
    (∀ fields, Json.getField fields "category" = some (Json.str "creatures") →
      decodeEntryResponse (Json.obj fields) =
        (decodeCreatureEntry fields).map EntryResponse.Creature) ∧
    (∀ fields, Json.getField fields "category" = some (Json.str "equipment") →
      decodeEntryResponse (Json.obj fields) =
        (decodeEquipmentEntry fields).map EntryResponse.Equipment) ∧
    (∀ fields, Json.getField fields "category" = some (Json.str "treasure") →
      decodeEntryResponse (Json.obj fields) =
        (decodeTreasureEntry fields).map EntryResponse.Treasure) ∧
    (∀ fields, Json.getField fields "category" = some (Json.str "materials") →
      decodeEntryResponse (Json.obj fields) =
        (decodeMaterialEntry fields).map EntryResponse.Material) ∧
    decodeEntryResponse (Json.obj []) = none ∧
    (∀ j, (∀ fields, j ≠ Json.obj fields) → decodeEntryResponse j = none) ∧
    (∀ (M : UrlModel) (net : Net) (c : CompendiumClient)
      (i : EntryIdentifier) (url : String) (r : HttpResponse),
      create_path_for_entry M c i GameMode.Standard = Except.ok url →
      net url = some r → r.status = 200 →
      decodeApiResponse decodeEntryResponse r.body = none →
      CompendiumClient.entry c M net i =
        Except.error CompendiumError.ResponseParsingError) := by
  refine ⟨?_, ?_, ?_, ?_, ?_, ?_, ?_, ?_, by decide, ?_, ?_⟩
  · intro fields h
    show decodeTagged fields = none
    unfold decodeTagged
    rw [h]
  · intro fields v hv hns
    show decodeTagged fields = none
    unfold decodeTagged
    rw [hv]
    cases v with
    | str s => exact absurd rfl (hns s)
    | null => rfl
    | bool b => rfl
    | num n => rfl
    | arr xs => rfl
    | obj fs => rfl
  · intro fields s hfs hmem
    simp only [List.mem_cons, List.mem_singleton, not_or] at hmem
    obtain ⟨h1, h2, h3, h4, h5, _⟩ := hmem
    show decodeTagged fields = none
    unfold decodeTagged
    rw [hfs]
    show decodeVariant s fields = none
    unfold decodeVariant
    rw [if_neg h1, if_neg h2, if_neg h3, if_neg h4, if_neg h5]
  · intro fields h
    show decodeTagged fields = _
    unfold decodeTagged
    rw [h]
    rfl
  · intro fields h
    show decodeTagged fields = _
    unfold decodeTagged
    rw [h]
    rfl
  · intro fields h
    show decodeTagged fields = _
    unfold decodeTagged
    rw [h]
    rfl
  · intro fields h
    show decodeTagged fields = _
    unfold decodeTagged
    rw [h]
    rfl
  · intro fields h
    show decodeTagged fields = _
    unfold decodeTagged
    rw [h]
    rfl
  · intro j hj
    cases j with
    | obj fields => exact absurd rfl (hj fields)
    | null => rfl
    | bool b => rfl
    | num n => rfl
    | str s => rfl
    | arr xs => rfl
  · intro M net c i url r hpath hnet hstat hdec
    show fetch_data_for_specified_entry M net c decodeEntryResponse i
      GameMode.Standard = _
    unfold fetch_data_for_specified_entry
    rw [hpath]
    show fetch_data_for_specified_type net decodeEntryResponse url = _
    have hs : is_server_error r.status = false := by rw [hstat]; rfl
    have hc : is_client_error r.status = false := by rw [hstat]; rfl
    have hh : handle_response r = Except.ok r := by
      simp [handle_response, hs, hc]
    have hm : make_request net url = handle_response r := by
      simp [make_request, hnet]
    simp [fetch_data_for_specified_type, hm, hh, hdec]

/-- Concrete instance of C1: an unrecognized discriminator ("weapons")
makes single-entry decoding fail. -/
theorem C1_entry_discriminator_witness :
    decodeEntryResponse (Json.obj [("category", Json.str "weapons")]) = none :=
  C1_entry_discriminator.2.2.1 [("category", Json.str "weapons")] "weapons"
    rfl (by decide)

/-- Helper: inverting `Except.map` on a success value. -/
theorem except_map_eq_ok (f : α → β) (x : Except ε α) (b : β)
    (h : x.map f = Except.ok b) : ∃ a, x = Except.ok a ∧ f a = b := by
  cases x with
  | error e => simp [Except.map] at h
  | ok a =>
    refine ⟨a, rfl, ?_⟩
    simpa [Except.map] using h

/-- Claim C5: `category` joins `category/` with the fixed word for the
requested category and, on success, returns the `CategoryResult` variant
selected by that category (creatures carrying the food/non-food split by
the shape of `CategoryResult.Creatures`), regardless of payload content. -/
theorem C5_category_request (M : UrlModel) (net : Net) (c : CompendiumClient)
    (cat : CompendiumCategory) :
    CompendiumClient.category c M net cat =
      (match create_path M c.base_url
          ("category/" ++ category_path_for_type cat) with
       | Except.error e => Except.error e
       | Except.ok url => fetch_data_for_specific_category net url cat) ∧
    category_path_for_type CompendiumCategory.Creature = "creatures" ∧
    category_path_for_type CompendiumCategory.Monster = "monsters" ∧
    category_path_for_type CompendiumCategory.Material = "materials" ∧
    category_path_for_type CompendiumCategory.Treasure = "treasure" ∧
    category_path_for_type CompendiumCategory.Equipment = "equipment" ∧
    (∀ (url : String) (v : CategoryResult),
      fetch_data_for_specific_category net url cat = Except.ok v →
      categoryResultMatches cat v = true) := by
  refine ⟨rfl, rfl, rfl, rfl, rfl, rfl, ?_⟩
  intro url v hv
  cases cat with
  | Treasure =>
    obtain ⟨l, _, hb⟩ := except_map_eq_ok _ _ _ hv
    rw [← hb]
    rfl
  | Creature =>
    obtain ⟨l, _, hb⟩ := except_map_eq_ok _ _ _ hv
    rw [← hb]
    rfl
  | Monster =>
    obtain ⟨l, _, hb⟩ := except_map_eq_ok _ _ _ hv
    rw [← hb]
    rfl
  | Material =>
    obtain ⟨l, _, hb⟩ := except_map_eq_ok _ _ _ hv
    rw [← hb]
    rfl
  | Equipment =>
    obtain ⟨l, _, hb⟩ := except_map_eq_ok _ _ _ hv
    rw [← hb]
    rfl

/-- A network answering 200 with an empty list under `data`. -/
def netEmptyList : Net :=
  fun _ => some ⟨200, "/category/monsters", Json.obj [("data", Json.arr [])]⟩

/-- Concrete instance of C5: a successful monster-category fetch yields
the `Monsters` variant. -/
theorem C5_category_request_witness :
    categoryResultMatches CompendiumCategory.Monster
      (CategoryResult.Monsters []) = true :=
  (C5_category_request ⟨fun b s => some (b ++ s)⟩ netEmptyList ⟨"b/"⟩
    CompendiumCategory.Monster).2.2.2.2.2.2 "u" (CategoryResult.Monsters [])
    (by decide)

/-- Helper: common-field decoding never reads the `category` key. -/
theorem decodeCommonEntry_cons_category (j : Json)
    (fields : List (String × Json)) :
    decodeCommonEntry (("category", j) :: fields) = decodeCommonEntry fields := by
  unfold decodeCommonEntry
  rw [getField_cons_ne "category" j fields "id" (by decide),
    getField_cons_ne "category" j fields "name" (by decide),
    getField_cons_ne "category" j fields "description" (by decide),
    decodeOptField_cons_ne decodeStrList "category" j fields
      "common_locations" (by decide),
    getField_cons_ne "category" j fields "image" (by decide)]

/-- The crate's winterwing-butterfly creature payload. -/
def butterflyFields : List (String × Json) :=
  [("category", Json.str "creatures"),
   ("common_locations",
     Json.arr [Json.str "Hyrule Ridge", Json.str "Tabantha Frontier"]),
   ("cooking_effect", Json.str "heat resistance"),
   ("description", Json.str "powdery"), ("hearts_recovered", Json.num 0),
   ("id", Json.num 67), ("image", Json.str "img"),
   ("name", Json.str "winterwing butterfly")]

/-- What the monster decoder makes of the butterfly payload: the common
fields, no drops, and the injected "monsters" default. -/
def butterflyAsMonster : MonsterEntry :=
  ⟨⟨67, "winterwing butterfly", "powdery",
    some ["Hyrule Ridge", "Tabantha Frontier"], "img"⟩, none, "monsters"⟩

/-- Claim C10: the kind-specific decoders never read the `category`
discriminator — prepending any `category` field leaves all five decoders
unchanged — and concretely, `monster` on a creature-category payload
succeeds with a `MonsterEntry` instead of failing. -/
theorem C10_kind_ops_ignore_discriminator :
    (∀ (fields : List (String × Json)) (j : Json),
      decodeMonsterEntry (("category", j) :: fields) =
        decodeMonsterEntry fields ∧
      decodeCreatureEntry (("category", j) :: fields) =
        decodeCreatureEntry fields ∧
      decodeMaterialEntry (("category", j) :: fields) =
        decodeMaterialEntry fields ∧
      decodeEquipmentEntry (("category", j) :: fields) =
        decodeEquipmentEntry fields ∧
      decodeTreasureEntry (("category", j) :: fields) =
        decodeTreasureEntry fields) ∧
    decodeMonsterJson (Json.obj butterflyFields) = some butterflyAsMonster ∧
    (∀ (M : UrlModel) (net : Net) (c : CompendiumClient)
      (i : EntryIdentifier) (url : String),
      create_path_for_entry M c i GameMode.Standard = Except.ok url →
      net url =
        some ⟨200, "/p", Json.obj [("data", Json.obj butterflyFields)]⟩ →
      CompendiumClient.monster c M net i = Except.ok butterflyAsMonster) := by
  refine ⟨?_, by decide, ?_⟩
  · intro fields j
    refine ⟨?_, ?_, ?_, ?_, ?_⟩
    · unfold decodeMonsterEntry
      rw [decodeCommonEntry_cons_category,
        decodeOptField_cons_ne decodeStrList "category" j fields "drops"
          (by decide),
        decodeCategoryType_cons_ne "category" j fields "monsters" (by decide)]
    · unfold decodeCreatureEntry
      rw [decodeCommonEntry_cons_category,
        decodeOptField_cons_ne decodeStrList "category" j fields "drops"
          (by decide),
        decodeOptField_cons_ne decodeNum "category" j fields
          "hearts_recovered" (by decide),
        decodeOptField_cons_ne decodeStr "category" j fields
          "cooking_effect" (by decide),
        decodeCategoryType_cons_ne "category" j fields "creatures" (by decide)]
    · unfold decodeMaterialEntry
      rw [decodeCommonEntry_cons_category,
        decodeOptField_cons_ne decodeNum "category" j fields
          "hearts_recovered" (by decide),
        decodeCategoryType_cons_ne "category" j fields "materials" (by decide)]
    · unfold decodeEquipmentEntry
      rw [decodeCommonEntry_cons_category,
        decodeOptField_cons_ne decodeI32 "category" j fields "attack"
          (by decide),
        decodeOptField_cons_ne decodeI32 "category" j fields "defense"
          (by decide),
        decodeCategoryType_cons_ne "category" j fields "equipment" (by decide)]
    · unfold decodeTreasureEntry
      rw [decodeCommonEntry_cons_category,
        decodeOptField_cons_ne decodeStrList "category" j fields "drops"
          (by decide),
        decodeCategoryType_cons_ne "category" j fields "treasure" (by decide)]
  · intro M net c i url hpath hnet
    show fetch_data_for_specified_entry M net c decodeMonsterJson i
      GameMode.Standard = _
    unfold fetch_data_for_specified_entry
    rw [hpath]
    show fetch_data_for_specified_type net decodeMonsterJson url =
      Except.ok butterflyAsMonster
    have hm : make_request net url =
        Except.ok ⟨200, "/p", Json.obj [("data", Json.obj butterflyFields)]⟩ := by
      simp [make_request, hnet, handle_response, is_server_error,
        is_client_error]
    simp [fetch_data_for_specified_type, hm]
    decide

/-- A network answering 200 with the butterfly payload under `data`. -/
def netButterfly : Net :=
  fun _ => some ⟨200, "/p", Json.obj [("data", Json.obj butterflyFields)]⟩

/-- Concrete instance of C10: requesting a monster against the
creature-category payload returns the decoded `MonsterEntry`. -/
theorem C10_kind_ops_ignore_discriminator_witness :
    CompendiumClient.monster ⟨"b/"⟩ ⟨fun b s => some (b ++ s)⟩ netButterfly
      (EntryIdentifier.Id 1) = Except.ok butterflyAsMonster :=
  C10_kind_ops_ignore_discriminator.2.2 ⟨fun b s => some (b ++ s)⟩
    netButterfly ⟨"b/"⟩ (EntryIdentifier.Id 1) "b/entry/1" (by decide) rfl
